import Mathlib

/-!
Verification model of the `sbca_wrapper` Libindy bridge (`libindy.py`).

The module wraps a native, callback-based C library: `run_command` allocates a
monotonically increasing command handle, registers an `asyncio.Future` for it
in the dict `_Libindy._futures`, invokes the native entry point, and the
result arrives later through a callback that resolves the future.  The model
below is a shallow embedding: Python objects become explicit state, native
calls are an oracle (`NativeModel`), and exceptions are an `Except` error
channel.  Future objects are heap-allocated and aliased (the `_futures` dict
holds references to them), so the state carries a heap of future objects keyed
by handle together with the list of keys currently present in the dict.
-/

/-- A value passed to or returned from the native library: callback payload
values and results of synchronous native calls, modelled as strings. -/
abbrev Value := String

/-- Modelled from the spec: the `IndyError` condition of the error module
(imported by `libindy.py` from `.error`, not among the analysed sources): an
error carrying the native response code, a human message and an optional
backtrace.  Success is the zero-payload condition with code 0. -/
structure IndyError where
  code : Int
  message : Option String
  backtrace : Option String
deriving DecidableEq

/-- Modelled from the spec: `IndyError(IndyErrorCode.Success)`, the Success
marker carrying no message and no backtrace. -/
def IndyError.success : IndyError :=
  { code := 0, message := none, backtrace := none }

/-- The Python exceptions the module raises, one constructor per raise site:
`RuntimeError` in `run_command` (not initialized), in `implements_command`
(library not loaded) and in `initialize_libindy` (already initialized);
`NotImplementedError` in `_get_command`; the error escaping the
`IndyErrorCode(code)` lookup in `_get_indy_error` for an unknown code;
`InvalidStateError` from resolving a non-pending future; `KeyError` from a
missing dict key; and an exception raised by a native synchronous call. -/
inductive PyExc where
  | notInitializedRuntimeError
  | notLoadedRuntimeError
  | alreadyInitializedRuntimeError
  | notImplementedError (command_name : String)
  | unknownCodeValueError (code : Int)
  | invalidStateError
  | keyError
  | nativeError
deriving DecidableEq

/-- The observable state of one `asyncio.Future` object. -/
inductive FutureState where
  | pending
  | cancelled
  | result (v : Option (List Value))
  | failed (e : IndyError)
deriving DecidableEq

/-- `future.cancelled()`. -/
def FutureState.isCancelled : FutureState → Bool
  | .cancelled => true
  | _ => false

/-- `future.set_result(v)`: raises `InvalidStateError` unless the future is
still pending. -/
def FutureState.setResult : FutureState → Option (List Value) → Except PyExc FutureState
  | .pending, v => .ok (.result v)
  | _, _ => .error .invalidStateError

/-- `future.set_exception(e)`: raises `InvalidStateError` unless the future is
still pending. -/
def FutureState.setException : FutureState → IndyError → Except PyExc FutureState
  | .pending, e => .ok (.failed e)
  | _, _ => .error .invalidStateError

/-- Lookup in the heap of future objects, keyed by command handle. -/
def heapGet : List (Nat × FutureState) → Nat → Option FutureState
  | [], _ => none
  | (k, f) :: rest, h => if k = h then some f else heapGet rest h

/-- Write a future object's state in the heap (insert or overwrite). -/
def heapSet : List (Nat × FutureState) → Nat → FutureState → List (Nat × FutureState)
  | [], h, f => [(h, f)]
  | (k, g) :: rest, h, f => if k = h then (h, f) :: rest else (k, g) :: heapSet rest h f

/-- The parsed error-detail blob returned by `indy_get_current_error`
(`json.loads` of the out parameter): a record with an optional `message` and
an optional `backtrace` field. -/
structure ErrorDetail where
  message : Option String
  backtrace : Option String

/-- The oracle for the loaded native library: `invoke` is the immediate integer
status an asynchronous entry point returns when called with a handle and
arguments; `syncInvoke` the (possibly raising) result of a synchronous entry
point; `currentError` the parsed blob `indy_get_current_error` reports;
`codeName` the enum member name of a code (`IndyErrorCode(code).name`, used as
message fallback); `knownCodes` the values of the `IndyErrorCode` enumeration
(modelled from the spec: the error module is not among the analysed sources;
`0` is Success and the other members form a closed set). -/
structure NativeModel where
  invoke : String → Nat → List Value → Int
  syncInvoke : String → List Value → Except Unit Value
  currentError : ErrorDetail
  codeName : Int → String
  knownCodes : List Int

/-- The mutable module state of `_Libindy`: whether `_library` is set and
which entry-point names it has; the heap of every future object created so
far, keyed by handle; the keys currently present in the `_futures` dict (its
values are references into the heap); the `itertools.count` counter; the
`initialized` flag; and an observation trace of the native entry points
invoked, in order. -/
structure LibindyState where
  loaded : Bool
  commands : List String
  heap : List (Nat × FutureState)
  futures : List Nat
  next_handle : Nat
  initialized : Bool
  native_calls : List String
deriving DecidableEq

/-- `_Libindy.implements_command`: raises `RuntimeError` when the library has
not been loaded, otherwise reports `hasattr(_library, command_name)`. -/
def implements_command (s : LibindyState) (command_name : String) : Except PyExc Bool :=
  if s.loaded then .ok (s.commands.contains command_name)
  else .error .notLoadedRuntimeError

/-- `_Libindy._get_command`: raises `NotImplementedError` when the command is
absent; on success the callable is obtained (its invocation is modelled
through `NativeModel`). -/
def get_command (s : LibindyState) (command_name : String) : Except PyExc Unit :=
  match implements_command s command_name with
  | .error e => .error e
  | .ok true => .ok ()
  | .ok false => .error (.notImplementedError command_name)

/-- `_Libindy._get_indy_error`: looks the code up in the `IndyErrorCode`
enumeration (an unknown code makes the lookup raise, uncaught); code 0 returns
the Success marker without touching the native library; a known nonzero code
fetches the current-error blob through `_get_command('indy_get_current_error')`
and builds an `IndyError` from code, the blob's `message` (falling back to the
enum member name) and the blob's `backtrace` (defaulting to `None`). -/
def get_indy_error (native : NativeModel) (s : LibindyState) (code : Int) :
    Except PyExc IndyError × LibindyState :=
  if native.knownCodes.contains code then
    if code = 0 then (.ok IndyError.success, s)
    else
      match get_command s "indy_get_current_error" with
      | .error e => (.error e, s)
      | .ok _ =>
        let s1 := { s with native_calls := s.native_calls ++ ["indy_get_current_error"] }
        (.ok { code := code,
               message := some (native.currentError.message.getD (native.codeName code)),
               backtrace := native.currentError.backtrace }, s1)
  else (.error (.unknownCodeValueError code), s)

/-- `_Libindy.run_command`: raises `RuntimeError` when not initialized; resolves
the command (`NotImplementedError` when absent); creates a pending future,
draws the next handle and stores the future in `_futures`; invokes the native
entry point with the handle; on a nonzero immediate status classifies the
error and sets it as the future's exception.  The `_futures` entry is not
touched on that synchronous-error path.  Returns the handle of the future
handed back to the caller. -/
def run_command (native : NativeModel) (s : LibindyState) (command_name : String)
    (command_args : List Value) : Except PyExc Nat × LibindyState :=
  if s.initialized then
    match get_command s command_name with
    | .error e => (.error e, s)
    | .ok _ =>
      let h := s.next_handle
      let s1 := { s with next_handle := h + 1,
                         heap := heapSet s.heap h .pending,
                         futures := h :: s.futures }
      let s2 := { s1 with native_calls := s1.native_calls ++ [command_name] }
      let rc := native.invoke command_name h command_args
      if rc = 0 then (.ok h, s2)
      else
        match get_indy_error native s2 rc with
        | (.error e, s3) => (.error e, s3)
        | (.ok err, s3) =>
          match heapGet s3.heap h with
          | none => (.error .keyError, s3)
          | some fut =>
            match fut.setException err with
            | .ok f2 => (.ok h, { s3 with heap := heapSet s3.heap h f2 })
            | .error e => (.error e, s3)
  else (.error .notInitializedRuntimeError, s)

/-- `_Libindy.sync_run_command`: `_get_command(command_name)(*command_args)` —
no initialization check, no handle, no future; the resolved entry point is
invoked directly and its raw result returned. -/
def sync_run_command (native : NativeModel) (s : LibindyState) (command_name : String)
    (command_args : List Value) : Except PyExc Value × LibindyState :=
  match get_command s command_name with
  | .error e => (.error e, s)
  | .ok _ =>
    let s1 := { s with native_calls := s.native_calls ++ [command_name] }
    match native.syncInvoke command_name command_args with
    | .ok v => (.ok v, s1)
    | .error _ => (.error .nativeError, s1)

/-- `_Libindy._indy_loop_callback`: pops the `(loop, future)` entry for the
handle out of `_futures` (`KeyError` when absent); when the future was not
cancelled, fulfills it with the payload tuple (`None` for an empty payload) on
Success, or fails it with the classified error; a cancelled future is left
untouched.  Runs on the owning event loop. -/
def indy_loop_callback (s : LibindyState) (command_handle : Nat)
    (response : IndyError) (response_values : List Value) :
    Except PyExc Unit × LibindyState :=
  if s.futures.contains command_handle then
    match heapGet s.heap command_handle with
    | none => (.error .keyError, s)
    | some fut =>
      let s1 := { s with futures := s.futures.erase command_handle }
      if fut.isCancelled then (.ok (), s1)
      else if response.code = 0 then
        match fut.setResult (if response_values.isEmpty then none else some response_values) with
        | .ok f2 => (.ok (), { s1 with heap := heapSet s1.heap command_handle f2 })
        | .error e => (.error e, s1)
      else
        match fut.setException response with
        | .ok f2 => (.ok (), { s1 with heap := heapSet s1.heap command_handle f2 })
        | .error e => (.error e, s1)
  else (.error .keyError, s)

/-- `_Libindy._indy_callback`: reads the owning loop for the handle out of
`_futures` (`KeyError` when absent) and marshals `_indy_loop_callback` onto it
via `call_soon_threadsafe`; the scheduled execution is modelled as running the
loop callback. -/
def indy_callback (s : LibindyState) (command_handle : Nat)
    (response : IndyError) (response_values : List Value) :
    Except PyExc Unit × LibindyState :=
  if s.futures.contains command_handle then
    indy_loop_callback s command_handle response response_values
  else (.error .keyError, s)

/-- The `_callback_fn` closure that `_Libindy.create_callback` wraps into a
C-callable trampoline: applies the optional transform to the raw payload
values (passing them through unchanged when none is given), classifies the
response code via `_get_indy_error`, and hands off to `_indy_callback`. -/
def callback_fn (native : NativeModel) (transform_fn : Option (List Value → List Value))
    (s : LibindyState) (command_handle : Nat) (response_code : Int)
    (response_values : List Value) : Except PyExc Unit × LibindyState :=
  let rvalues := match transform_fn with
    | some f => f response_values
    | none => response_values
  match get_indy_error native s response_code with
  | (.error e, s1) => (.error e, s1)
  | (.ok response, s1) => indy_callback s1 command_handle response rvalues

/-- `initialize_libindy`: raises `RuntimeError` when already initialized; when
a (truthy) runtime config is given, forwards its serialized form through
`sync_run_command('indy_set_runtime_config', ...)`; installs the logging
bridge through `sync_run_command('indy_set_logger', ...)`; only after both
native calls returned is the `initialized` flag set.  The config is taken
already serialized (`json.dumps` of a dict is an external collaborator); an
empty string is falsy in Python, so it is skipped like `None`. -/
def initialize_libindy (native : NativeModel) (s : LibindyState)
    (runtime_config : Option String) : Except PyExc Unit × LibindyState :=
  if s.initialized then (.error .alreadyInitializedRuntimeError, s)
  else
    match
      (match runtime_config with
       | some cfg =>
         if cfg = "" then (Except.ok (), s)
         else
           match sync_run_command native s "indy_set_runtime_config" [cfg] with
           | (.ok _, s1) => (Except.ok (), s1)
           | (.error e, s1) => (Except.error e, s1)
       | none => (Except.ok (), s))
    with
    | (.error e, s1) => (.error e, s1)
    | (.ok _, s1) =>
      match sync_run_command native s1 "indy_set_logger" [] with
      | (.error e, s2) => (.error e, s2)
      | (.ok _, s2) => (.ok (), { s2 with initialized := true })

/-- A sample native library for concrete runs: every asynchronous entry point
reports immediate success, synchronous calls return a raw string, and the
current-error blob carries the message of spec scenario 7. -/
def sampleNative : NativeModel :=
  { invoke := fun _ _ _ => 0
    syncInvoke := fun _ _ => .ok "raw"
    currentError := { message := some "no wallet", backtrace := none }
    codeName := fun _ => "WalletItemNotFound"
    knownCodes := [0, 112, 113] }

/-- A native library whose asynchronous entry points report the immediate
error status 113. -/
def errNative : NativeModel :=
  { sampleNative with invoke := fun _ _ _ => 113 }

/-- A native library whose synchronous entry points raise. -/
def failSyncNative : NativeModel :=
  { sampleNative with syncInvoke := fun _ _ => .error () }

/-- The entry points of the sample library. -/
def baseCommands : List String :=
  ["op_a", "op_b", "op_sync", "indy_get_current_error",
   "indy_set_runtime_config", "indy_set_logger"]

/-- A loaded and initialized module state with no outstanding call. -/
def readyState : LibindyState :=
  { loaded := true, commands := baseCommands, heap := [], futures := [],
    next_handle := 0, initialized := true, native_calls := [] }

/-- A loaded but not yet initialized module state. -/
def freshState : LibindyState :=
  { readyState with initialized := false }

/-- An initialized state with one outstanding call, handle 7, whose future the
caller has already cancelled. -/
def cancelledState : LibindyState :=
  { readyState with heap := [(7, .cancelled)], futures := [7], next_handle := 8 }

/-- An initialized state with one outstanding call, handle 3, still pending. -/
def pendingState : LibindyState :=
  { readyState with heap := [(3, .pending)], futures := [3], next_handle := 4 }

theorem heapGet_heapSet_self (heap : List (Nat × FutureState)) (h : Nat) (f : FutureState) :
    heapGet (heapSet heap h f) h = some f := by
  induction heap with
  | nil => simp [heapSet, heapGet]
  | cons kv rest ih =>
    obtain ⟨k, g⟩ := kv
    by_cases hk : k = h
    · simp [heapSet, heapGet, hk]
    · simp [heapSet, heapGet, hk, ih]

/-- C4: for every command name and arguments, calling run_command while the
library is not initialized fails with the NotInitialized RuntimeError and
leaves the module state untouched: the monotonic counter is unchanged, no
future is registered in the pending map, and no native entry point is invoked
(the native-call trace is unchanged). -/
theorem run_command_requires_initialized (native : NativeModel) (s : LibindyState)
    (command_name : String) (command_args : List Value)
    (h : s.initialized = false) :
    run_command native s command_name command_args =
      (.error .notInitializedRuntimeError, s) := by
  simp [run_command, h]

/-- C4 witness: dispatch on the loaded but uninitialized sample state. -/
theorem run_command_requires_initialized_witness :
    freshState.initialized = false ∧
    run_command sampleNative freshState "op_a" [] =
      (.error .notInitializedRuntimeError, freshState) :=
  ⟨by decide,
   run_command_requires_initialized sampleNative freshState "op_a" [] (by decide)⟩

/-- C9: calling initialize_libindy a second time after a successful first call
fails with the AlreadyInitialized RuntimeError before anything else happens:
the state is returned unchanged, so no runtime config is forwarded, no logger
is registered and no native call is made by the failing second call. -/
theorem initialize_libindy_twice_rejected (native : NativeModel) (s : LibindyState)
    (runtime_config : Option String) (h : s.initialized = true) :
    initialize_libindy native s runtime_config =
      (.error .alreadyInitializedRuntimeError, s) := by
  simp [initialize_libindy, h]

/-- C9 witness: a second initialization attempt on an initialized state. -/
theorem initialize_libindy_twice_rejected_witness :
    readyState.initialized = true ∧
    initialize_libindy sampleNative readyState (some "cfg") =
      (.error .alreadyInitializedRuntimeError, readyState) :=
  ⟨by decide,
   initialize_libindy_twice_rejected sampleNative readyState (some "cfg") (by decide)⟩

/-- C5: for every nonzero native response code outside the known error-code
enumeration, get_indy_error raises the unknown-code condition (the failed
enumeration lookup escapes) and never returns an error-condition value. -/
theorem get_indy_error_unknown_code (native : NativeModel) (s : LibindyState)
    (code : Int) (h : code ∉ native.knownCodes) :
    get_indy_error native s code = (.error (.unknownCodeValueError code), s) ∧
    ∀ err : IndyError, (get_indy_error native s code).1 ≠ .ok err := by
  have h1 : get_indy_error native s code = (.error (.unknownCodeValueError code), s) := by
    simp [get_indy_error, h]
  exact ⟨h1, by simp [h1]⟩

/-- C5 witness: code 999 is outside the sample enumeration. -/
theorem get_indy_error_unknown_code_witness :
    999 ∉ sampleNative.knownCodes ∧
    get_indy_error sampleNative readyState 999 =
      (.error (.unknownCodeValueError 999), readyState) :=
  ⟨by decide, (get_indy_error_unknown_code sampleNative readyState 999 (by decide)).1⟩

/-- C6: for every known nonzero native response code, get_indy_error fetches
the current-error blob through the native entry point (the trace gains exactly
that call) and returns an error carrying the code, the blob's message falling
back to the code's enum name, and the blob's backtrace when present; for code
0 it returns the Success marker with the state unchanged, so no native
error-detail query is made. -/
theorem get_indy_error_known_code (native : NativeModel) (s : LibindyState) (code : Int)
    (hk : code ∈ native.knownCodes) (h0 : ¬ code = 0)
    (hload : s.loaded = true)
    (hgce : "indy_get_current_error" ∈ s.commands)
    (hz : 0 ∈ native.knownCodes) :
    get_indy_error native s code =
      (.ok { code := code,
             message := some (native.currentError.message.getD (native.codeName code)),
             backtrace := native.currentError.backtrace },
       { s with native_calls := s.native_calls ++ ["indy_get_current_error"] }) ∧
    get_indy_error native s 0 = (.ok IndyError.success, s) := by
  constructor
  · simp [get_indy_error, get_command, implements_command, hk, h0, hload, hgce]
  · simp [get_indy_error, hz]

/-- C6 witness: the spec scenario code 112 with detail blob message
"no wallet", and the zero code, on the sample library. -/
theorem get_indy_error_known_code_witness :
    get_indy_error sampleNative readyState 112 =
      (.ok { code := 112,
             message := some (sampleNative.currentError.message.getD (sampleNative.codeName 112)),
             backtrace := sampleNative.currentError.backtrace },
       { readyState with native_calls := readyState.native_calls ++ ["indy_get_current_error"] }) ∧
    get_indy_error sampleNative readyState 0 = (.ok IndyError.success, readyState) :=
  get_indy_error_known_code sampleNative readyState 112 (by decide) (by decide)
    (by decide) (by decide) (by decide)

/-- C8: for every command name absent from the loaded library,
implements_command reports false without raising, and run_command on an
initialized state fails with NotImplemented, returning the state unchanged:
no handle is allocated and no future is registered. -/
theorem missing_command_probe_and_dispatch (native : NativeModel) (s : LibindyState)
    (command_name : String) (command_args : List Value)
    (hload : s.loaded = true) (habs : command_name ∉ s.commands)
    (hinit : s.initialized = true) :
    implements_command s command_name = .ok false ∧
    run_command native s command_name command_args =
      (.error (.notImplementedError command_name), s) := by
  constructor
  · simp [implements_command, hload, habs]
  · simp [run_command, get_command, implements_command, hinit, hload, habs]

/-- C8 witness: probing and dispatching the absent command op_nonexistent. -/
theorem missing_command_probe_and_dispatch_witness :
    implements_command readyState "op_nonexistent" = .ok false ∧
    run_command sampleNative readyState "op_nonexistent" [] =
      (.error (.notImplementedError "op_nonexistent"), readyState) :=
  missing_command_probe_and_dispatch sampleNative readyState "op_nonexistent" []
    (by decide) (by decide) (by decide)

/-- C2: for every registered handle whose future has been cancelled before
callback delivery, running the loop callback does not raise, leaves the future
untouched (no result and no exception is set: the heap is unchanged), and
removes the handle's entry from the pending-futures map. -/
theorem cancelled_callback_discards_and_removes (s : LibindyState)
    (command_handle : Nat) (response : IndyError) (response_values : List Value)
    (hmem : command_handle ∈ s.futures)
    (hcanc : heapGet s.heap command_handle = some .cancelled)
    (hnd : s.futures.Nodup) :
    indy_loop_callback s command_handle response response_values =
      (.ok (), { s with futures := s.futures.erase command_handle }) ∧
    command_handle ∉ s.futures.erase command_handle := by
  refine ⟨?_, hnd.not_mem_erase⟩
  simp [indy_loop_callback, hmem, hcanc, FutureState.isCancelled]

/-- C2 witness: delivering a callback for the cancelled handle 7. -/
theorem cancelled_callback_discards_and_removes_witness :
    indy_loop_callback cancelledState 7 IndyError.success [] =
      (.ok (), { cancelledState with futures := cancelledState.futures.erase 7 }) ∧
    7 ∉ cancelledState.futures.erase 7 :=
  cancelled_callback_discards_and_removes cancelledState 7 IndyError.success []
    (by decide) (by decide) (by decide)

/-- C3: a callback resolution with the Success response code on a registered
handle whose future is still pending fulfills the future with exactly the
ordered list of transformed payload values (the raw values unchanged when no
transform is given), an empty payload yielding the no-value success None
rather than an empty tuple or a failure, and removes the handle from the
pending-futures map. -/
theorem success_callback_fulfills_tuple (native : NativeModel)
    (transform_fn : Option (List Value → List Value)) (s : LibindyState)
    (command_handle : Nat) (response_values rvalues : List Value)
    (hz : 0 ∈ native.knownCodes)
    (hmem : command_handle ∈ s.futures)
    (hpend : heapGet s.heap command_handle = some .pending)
    (htv : rvalues = (match transform_fn with
                      | some f => f response_values
                      | none => response_values)) :
    callback_fn native transform_fn s command_handle 0 response_values =
      (.ok (), { s with futures := s.futures.erase command_handle,
                        heap := heapSet s.heap command_handle
                          (.result (if rvalues.isEmpty then none else some rvalues)) }) := by
  subst htv
  simp [callback_fn, get_indy_error, indy_callback, indy_loop_callback, hz, hmem,
        hpend, FutureState.isCancelled, IndyError.success, FutureState.setResult]

/-- C3 witness: the spec scenario — a success callback with payload
["result"] and no transform fulfills the pending future for handle 3 with the
one-element tuple. -/
theorem success_callback_fulfills_tuple_witness :
    callback_fn sampleNative none pendingState 3 0 ["result"] =
      (.ok (), { pendingState with
                 futures := pendingState.futures.erase 3,
                 heap := heapSet pendingState.heap 3
                   (.result (if (["result"] : List Value).isEmpty then none
                             else some ["result"])) }) :=
  success_callback_fulfills_tuple sampleNative none pendingState 3 ["result"] ["result"]
    (by decide) (by decide) (by decide) rfl

/-- C1 counterexample: on the sample library whose entry points return the
immediate error status 113, dispatching op_a resolves the returned future with
the corresponding error, yet the pending-futures map still holds an entry for
the handle: the claim that the entry is removed on the synchronous-error path
is false at this input. -/
theorem run_command_sync_error_entry_not_removed :
    (run_command errNative readyState "op_a" []).1 = .ok 0 ∧
    heapGet (run_command errNative readyState "op_a" []).2.heap 0 =
      some (.failed { code := 113, message := some "no wallet", backtrace := none }) ∧
    (run_command errNative readyState "op_a" []).2.futures.contains 0 = true := by
  refine ⟨rfl, rfl, rfl⟩

/-- C1 (amended): for every dispatched command whose native entry point
returns a nonzero immediate status with a known code, run_command sets the
corresponding error as the returned future's exception, but the PendingCall
entry for that handle is NOT removed from the pending-futures map: the handle
is still registered after the synchronous-error resolution. -/
theorem run_command_sync_error_keeps_pending_entry (native : NativeModel)
    (s : LibindyState) (command_name : String) (command_args : List Value) (c : Int)
    (hinit : s.initialized = true) (hload : s.loaded = true)
    (hcmd : command_name ∈ s.commands)
    (hrc : native.invoke command_name s.next_handle command_args = c) (hc0 : ¬ c = 0)
    (hkn : c ∈ native.knownCodes)
    (hgce : "indy_get_current_error" ∈ s.commands) :
    (run_command native s command_name command_args).1 = .ok s.next_handle ∧
    heapGet (run_command native s command_name command_args).2.heap s.next_handle =
      some (.failed { code := c,
                      message := some (native.currentError.message.getD (native.codeName c)),
                      backtrace := native.currentError.backtrace }) ∧
    s.next_handle ∈ (run_command native s command_name command_args).2.futures := by
  have hg : heapGet (heapSet s.heap s.next_handle .pending) s.next_handle =
      some .pending := heapGet_heapSet_self s.heap s.next_handle .pending
  simp [run_command, get_command, implements_command, get_indy_error, hinit, hload,
        hcmd, hrc, hc0, hkn, hgce, hg, FutureState.setException, heapGet_heapSet_self]

/-- C1 witness: dispatching op_a on the status-113 library. -/
theorem run_command_sync_error_keeps_pending_entry_witness :
    (run_command errNative readyState "op_a" []).1 = .ok readyState.next_handle ∧
    heapGet (run_command errNative readyState "op_a" []).2.heap readyState.next_handle =
      some (.failed { code := 113,
                      message := some (errNative.currentError.message.getD (errNative.codeName 113)),
                      backtrace := errNative.currentError.backtrace }) ∧
    readyState.next_handle ∈ (run_command errNative readyState "op_a" []).2.futures :=
  run_command_sync_error_keeps_pending_entry errNative readyState "op_a" [] 113
    (by decide) (by decide) (by decide) (by decide) (by decide) (by decide) (by decide)

/-- C7 counterexample: sync_run_command on a loaded but uninitialized state
does not fail with NotInitialized: it invokes the native entry point directly
and returns its raw result, so the claim that every dispatch operation
enforces the initialized precondition is false at this input. -/
theorem sync_run_command_uninitialized_counterexample :
    freshState.initialized = false ∧
    sync_run_command sampleNative freshState "op_sync" [] =
      (.ok "raw", { freshState with native_calls := ["op_sync"] }) := by
  refine ⟨rfl, rfl⟩

/-- C7 (amended): sync_run_command performs no initialization check: for every
loaded state carrying the command, also one on which initialize has not yet
succeeded, it invokes the native entry point (the trace gains the command) and
never fails with NotInitialized.  Only the asynchronous run_command enforces
the initialized precondition; initialize_libindy itself relies on this to
forward the runtime config and register the logger before the flag is set. -/
theorem sync_run_command_skips_init_check (native : NativeModel) (s : LibindyState)
    (command_name : String) (command_args : List Value)
    (hload : s.loaded = true) (hcmd : command_name ∈ s.commands)
    (_huninit : s.initialized = false) :
    (sync_run_command native s command_name command_args).2.native_calls =
      s.native_calls ++ [command_name] ∧
    (sync_run_command native s command_name command_args).1 ≠
      .error .notInitializedRuntimeError := by
  cases hsi : native.syncInvoke command_name command_args with
  | ok v =>
    constructor <;>
      simp [sync_run_command, get_command, implements_command, hload, hcmd, hsi]
  | error u =>
    constructor <;>
      simp [sync_run_command, get_command, implements_command, hload, hcmd, hsi]

/-- C7 witness: the synchronous command op_sync on the uninitialized state. -/
theorem sync_run_command_skips_init_check_witness :
    (sync_run_command sampleNative freshState "op_sync" []).2.native_calls =
      freshState.native_calls ++ ["op_sync"] ∧
    (sync_run_command sampleNative freshState "op_sync" []).1 ≠
      .error .notInitializedRuntimeError :=
  sync_run_command_skips_init_check sampleNative freshState "op_sync" []
    (by decide) (by decide) (by decide)

theorem sync_run_command_initialized_eq (native : NativeModel) (s : LibindyState)
    (command_name : String) (command_args : List Value) :
    (sync_run_command native s command_name command_args).2.initialized =
      s.initialized := by
  unfold sync_run_command
  cases hg : get_command s command_name with
  | error e => simp
  | ok u => cases native.syncInvoke command_name command_args <;> simp

theorem get_command_error_cases (s : LibindyState) (command_name : String) (e : PyExc)
    (h : get_command s command_name = .error e) :
    e = .notLoadedRuntimeError ∨ e = .notImplementedError command_name := by
  unfold get_command implements_command at h
  by_cases hl : s.loaded
  · by_cases hc : command_name ∈ s.commands
    · simp [hl, hc] at h
    · simp [hl, hc] at h
      exact Or.inr h.symm
  · simp [hl] at h
    exact Or.inl h.symm

theorem sync_run_command_not_already (native : NativeModel) (s : LibindyState)
    (command_name : String) (command_args : List Value) :
    (sync_run_command native s command_name command_args).1 ≠
      .error .alreadyInitializedRuntimeError := by
  unfold sync_run_command
  cases hg : get_command s command_name with
  | error e =>
    rcases get_command_error_cases s command_name e hg with he | he <;> simp [he]
  | ok u => cases native.syncInvoke command_name command_args <;> simp


theorem initialize_libindy_outcomes (native : NativeModel) (s : LibindyState)
    (runtime_config : Option String) (h : s.initialized = false) :
    ((initialize_libindy native s runtime_config).1 = .ok () ∧
      (initialize_libindy native s runtime_config).2.initialized = true) ∨
    ((∃ e, (initialize_libindy native s runtime_config).1 = .error e ∧
        e ≠ .alreadyInitializedRuntimeError) ∧
      (initialize_libindy native s runtime_config).2.initialized = false) := by
  unfold initialize_libindy
  rw [if_neg (by simp [h])]
  rcases runtime_config with _ | cfg
  · dsimp only
    rcases hsl : sync_run_command native s "indy_set_logger" [] with ⟨r2, t2⟩
    have h2i := sync_run_command_initialized_eq native s "indy_set_logger" []
    have hna := sync_run_command_not_already native s "indy_set_logger" []
    rw [hsl] at h2i hna
    cases r2 with
    | error e2 =>
      simp only [ne_eq] at hna
      simp at hna
      right
      exact ⟨⟨e2, rfl, hna⟩, h2i.trans h⟩
    | ok v2 => exact Or.inl ⟨rfl, rfl⟩
  · dsimp only
    by_cases hemp : cfg = ""
    · rw [if_pos hemp]
      dsimp only
      rcases hsl : sync_run_command native s "indy_set_logger" [] with ⟨r2, t2⟩
      have h2i := sync_run_command_initialized_eq native s "indy_set_logger" []
      have hna := sync_run_command_not_already native s "indy_set_logger" []
      rw [hsl] at h2i hna
      cases r2 with
      | error e2 =>
        simp at hna
        right
        exact ⟨⟨e2, rfl, hna⟩, h2i.trans h⟩
      | ok v2 => exact Or.inl ⟨rfl, rfl⟩
    · rw [if_neg hemp]
      rcases hs0 : sync_run_command native s "indy_set_runtime_config" [cfg] with ⟨r0, t0⟩
      have h0i := sync_run_command_initialized_eq native s "indy_set_runtime_config" [cfg]
      have h0na := sync_run_command_not_already native s "indy_set_runtime_config" [cfg]
      rw [hs0] at h0i h0na
      cases r0 with
      | error e0 =>
        simp at h0na
        right
        exact ⟨⟨e0, rfl, h0na⟩, h0i.trans h⟩
      | ok v0 =>
        have ht0 : t0.initialized = false := h0i.trans h
        dsimp only
        rcases hsl : sync_run_command native t0 "indy_set_logger" [] with ⟨r2, t2⟩
        have h2i := sync_run_command_initialized_eq native t0 "indy_set_logger" []
        have hna := sync_run_command_not_already native t0 "indy_set_logger" []
        rw [hsl] at h2i hna
        cases r2 with
        | error e2 =>
          simp at hna
          right
          exact ⟨⟨e2, rfl, hna⟩, h2i.trans ht0⟩
        | ok v2 => exact Or.inl ⟨rfl, rfl⟩

/-- C10: the initialized flag is set only as the last step of
initialize_libindy, after the runtime-config call (when a config is given) and
the set-logger call have both completed; when the library is uninitialized and
the initialization fails with an error (either native call raised), the
library remains uninitialized and a subsequent initialize call is not
rejected with AlreadyInitialized. -/
theorem initialize_failure_leaves_uninitialized (native native2 : NativeModel)
    (s : LibindyState) (runtime_config runtime_config2 : Option String) (e : PyExc)
    (hinit : s.initialized = false)
    (hres : (initialize_libindy native s runtime_config).1 = .error e) :
    (initialize_libindy native s runtime_config).2.initialized = false ∧
    (initialize_libindy native2 (initialize_libindy native s runtime_config).2
        runtime_config2).1 ≠ .error .alreadyInitializedRuntimeError := by
  rcases initialize_libindy_outcomes native s runtime_config hinit with
    ⟨hok, _⟩ | ⟨_, hun⟩
  · rw [hres] at hok
    exact absurd hok (by simp)
  · refine ⟨hun, ?_⟩
    rcases initialize_libindy_outcomes native2
        (initialize_libindy native s runtime_config).2 runtime_config2 hun with
      ⟨hok2, _⟩ | ⟨⟨e2, he2, hne2⟩, _⟩
    · rw [hok2]
      simp
    · rw [he2]
      exact fun hbad => hne2 (Except.error.inj hbad)

/-- C10 witness: initialization with a config on the library whose synchronous
entry points raise fails, leaves the state uninitialized, and a retry is not
rejected as already initialized. -/
theorem initialize_failure_leaves_uninitialized_witness :
    (initialize_libindy failSyncNative freshState (some "cfg")).2.initialized = false ∧
    (initialize_libindy sampleNative
        (initialize_libindy failSyncNative freshState (some "cfg")).2
        (some "cfg")).1 ≠ .error .alreadyInitializedRuntimeError :=
  initialize_failure_leaves_uninitialized failSyncNative sampleNative freshState
    (some "cfg") (some "cfg") .nativeError (by decide) rfl
